import Mathlib

/-!
# Load-balancer resource handlers and the virtual-machine label check

A shallow embedding of

* `internal/provider/loadbalancer/resource_loadbalancer.go`
  (`resourceLoadBalancerCreate`, `resourceLoadBalancerRead`,
  `resourceLoadBalancerUpdate`, `resourceLoadBalancerDelete`,
  `resourceLoadBalancerImport`), and
* `internal/tests/resource_virtualmachine_test.go`
  (`testAccGetVirtualMachine`, `testAccVirtualMachineLabels`).

Handlers mutate a `*schema.ResourceData` and talk to a remote store through a
typed client.  Both effects are made explicit: a handler takes the record and
the remote store and returns an `Outcome` holding the diagnostics, the record
after the call, the remote store after the call and the list of remote calls
that were issued, in order.
-/

namespace Harvester

/-! ## Errors and diagnostics -/

deriving instance DecidableEq for Except

/-- A Go `error` value; `msg` is what `err.Error()` returns. -/
structure GoError where
  msg : String
deriving DecidableEq, Repr

/-- Severity of a diagnostic (`diag.Severity`). -/
inductive Severity where
  | Error
  | Warning
deriving DecidableEq, Repr

/-- One entry of `diag.Diagnostics`. -/
structure Diagnostic where
  Severity : Severity
  Summary : String
deriving DecidableEq, Repr

/-- The type `diag.Diagnostics`; the empty list is the `nil` value, which the
plugin framework reads as success. -/
abbrev Diagnostics := List Diagnostic

/-- The function `diag.FromErr` of the plugin SDK: `nil` for a `nil` error,
otherwise a single error diagnostic whose summary is the error text. -/
def diag.FromErr : Option GoError → Diagnostics
  | none => []
  | some err => [{ Severity := Severity.Error, Summary := err.msg }]

/-! ## The configuration record -/

/-- The part of `schema.ResourceData` the handlers touch: the identifier and the
flat mapping of field names to values.  An unset identifier is the empty
string, as in the SDK. -/
structure ResourceData where
  id : String
  fields : List (String × String)
deriving DecidableEq, Repr

/-- The call `data.Get(key).(string)`: the stored value, or the zero value. -/
def ResourceData.Get (data : ResourceData) (key : String) : String :=
  (data.fields.lookup key).getD ""

/-- The call `data.SetId(v)`. -/
def ResourceData.SetId (data : ResourceData) (v : String) : ResourceData :=
  { data with id := v }

/-! ## Identifier codec (`pkg/helper`) -/

/-- The reserved separator of identifiers, `/`. -/
def helper.IDSep : Char := '/'

/-- Modelled from the spec: `helper.BuildID` (package `pkg/helper`) is not among
the sources.  The identifier format is `"<namespace>/<name>"` with `/` as the
reserved separator (§6), and that is the value on every legal pair.  The one
use in the sources, `data.SetId(helper.BuildID(namespace, name))`, takes the
result as a plain string, so this is a function to strings.  The failure with
`InvalidIdentity` that §4.1 gives `compose` on an empty or separator-bearing
input has no counterpart at that call site and is not part of this
definition; what the handler does on such a pair is stated for an arbitrary
string-valued codec, see `resourceLoadBalancerCreateWith`. -/
def helper.BuildID (ns name : String) : String :=
  ns ++ String.singleton helper.IDSep ++ name

/-- The error `MalformedIdentifier` of the identifier codec. -/
def helper.MalformedIdentifier (id : String) : GoError :=
  ⟨"MalformedIdentifier: " ++ id⟩

/-- Modelled from the spec: `helper.IDParts` (package `pkg/helper`) is not among
the sources.  Decomposition fails with `MalformedIdentifier` if the separator
is absent or appears more than once, or if either resulting part is empty;
otherwise it returns the two parts verbatim.  The Go function returns
`(namespace, name, err)`; the two strings are meaningful only when `err` is
`nil`, which is the `ok` case here. -/
def helper.IDParts (id : String) : Except GoError (String × String) :=
  match id.data.splitOn helper.IDSep with
  | [ns, name] =>
    if ns = [] ∨ name = [] then .error (helper.MalformedIdentifier id)
    else .ok (String.mk ns, String.mk name)
  | _ => .error (helper.MalformedIdentifier id)

/-! ## Collaborators of the load-balancer handlers -/

/-- The functions and constants of this repository that the handlers use and
that are not among the sources.  `LB` is `loadbalancerv1.LoadBalancer` and `SG`
is `importer.StateGetter`. -/
structure Deps (LB SG : Type) where
  /-- The constant `constants.FieldCommonNamespace`. -/
  FieldCommonNamespace : String
  /-- The constant `constants.FieldCommonName`. -/
  FieldCommonName : String
  /-- The call `util.ResourceConstruct(data, Creator(namespace, name))`, asserted
  to be a load balancer: it builds the creation payload from the record, the
  namespace and the name, or fails; it reads the record and does not write
  to it. -/
  ResourceConstruct : ResourceData → String → String → Except GoError LB
  /-- The function `importer.ResourceLoadBalancerStateGetter`. -/
  ResourceLoadBalancerStateGetter : LB → Except GoError SG
  /-- The function `util.ResourceStatesSet`, which writes into the record and
  returns an error or `nil`. -/
  ResourceStatesSet : ResourceData → SG → ResourceData × Option GoError

/-- The typed client of the remote store, as far as the handlers use it:
`LoadBalancers(namespace).Create(ctx, obj, opts)`.  The call returns the stored
object or an error, and leaves the remote store in a new state. -/
structure Client (Ctx σ LB : Type) where
  Create : Ctx → σ → String → LB → Except GoError LB × σ

/-- A call issued to the remote store. -/
inductive RemoteCall (LB : Type) where
  | Create (ns : String) (obj : LB)
deriving DecidableEq, Repr

/-- What a handler leaves behind. -/
structure Outcome (σ LB : Type) where
  diags : Diagnostics
  data : ResourceData
  remote : σ
  calls : List (RemoteCall LB)
deriving DecidableEq, Repr

section Handlers

variable {Ctx σ LB SG : Type}

/-- The function `resourceLoadBalancerImport`: returns the record after the
call and the error. -/
def resourceLoadBalancerImport (deps : Deps LB SG) (data : ResourceData) (obj : LB) :
    ResourceData × Option GoError :=
  match deps.ResourceLoadBalancerStateGetter obj with
  | .error err => (data, some err)
  | .ok stateGetter => deps.ResourceStatesSet data stateGetter

/-- The function `resourceLoadBalancerCreate`. -/
def resourceLoadBalancerCreate (deps : Deps LB SG) (ctx : Ctx) (data : ResourceData)
    (c : Client Ctx σ LB) (remote : σ) : Outcome σ LB :=
  let ns := data.Get deps.FieldCommonNamespace
  let name := data.Get deps.FieldCommonName
  match deps.ResourceConstruct data ns name with
  | .error err => ⟨diag.FromErr (some err), data, remote, []⟩
  | .ok toCreate =>
    match c.Create ctx remote ns toCreate with
    | (.error err, remote1) =>
      ⟨diag.FromErr (some err), data, remote1, [RemoteCall.Create ns toCreate]⟩
    | (.ok lb, remote1) =>
      let data1 := data.SetId (helper.BuildID ns name)
      let res := resourceLoadBalancerImport deps data1 lb
      ⟨diag.FromErr res.2, res.1, remote1, [RemoteCall.Create ns toCreate]⟩

/-- The body of `resourceLoadBalancerCreate` with the identifier codec called at
`data.SetId(helper.BuildID(namespace, name))` left open: `buildID` is any
function from two strings to a string, which is all the call site asks of
`helper.BuildID`.  At `helper.BuildID` this is `resourceLoadBalancerCreate`. -/
def resourceLoadBalancerCreateWith (buildID : String → String → String) (deps : Deps LB SG)
    (ctx : Ctx) (data : ResourceData) (c : Client Ctx σ LB) (remote : σ) : Outcome σ LB :=
  let ns := data.Get deps.FieldCommonNamespace
  let name := data.Get deps.FieldCommonName
  match deps.ResourceConstruct data ns name with
  | .error err => ⟨diag.FromErr (some err), data, remote, []⟩
  | .ok toCreate =>
    match c.Create ctx remote ns toCreate with
    | (.error err, remote1) =>
      ⟨diag.FromErr (some err), data, remote1, [RemoteCall.Create ns toCreate]⟩
    | (.ok lb, remote1) =>
      let data1 := data.SetId (buildID ns name)
      let res := resourceLoadBalancerImport deps data1 lb
      ⟨diag.FromErr res.2, res.1, remote1, [RemoteCall.Create ns toCreate]⟩

/-- The function `resourceLoadBalancerRead`. -/
def resourceLoadBalancerRead (_ctx : Ctx) (data : ResourceData)
    (_c : Client Ctx σ LB) (remote : σ) : Outcome σ LB :=
  ⟨diag.FromErr none, data, remote, []⟩

/-- The function `resourceLoadBalancerUpdate`. -/
def resourceLoadBalancerUpdate (_ctx : Ctx) (data : ResourceData)
    (_c : Client Ctx σ LB) (remote : σ) : Outcome σ LB :=
  ⟨diag.FromErr none, data, remote, []⟩

/-- The function `resourceLoadBalancerDelete`. -/
def resourceLoadBalancerDelete (_ctx : Ctx) (data : ResourceData)
    (_c : Client Ctx σ LB) (remote : σ) : Outcome σ LB :=
  ⟨diag.FromErr none, data, remote, []⟩

end Handlers

/-! ## The virtual-machine acceptance test helpers -/

/-- The part of `kubevirtv1.VirtualMachine` the label check reads.  A Go map is
a list of key/value pairs; `List.lookup` is the map lookup. -/
structure VirtualMachine where
  Labels : List (String × String)
deriving DecidableEq, Repr

/-- One entry of `state.RootModule().Resources`. -/
structure ResourceState where
  ResourceType : String
  PrimaryID : String
deriving DecidableEq, Repr

/-- The resources of the root module of a `terraform.State`, by name. -/
abbrev State := List (String × ResourceState)

/-- The function `testAccGetVirtualMachine`; `get ns name` is
`c.HarvesterClient.KubevirtV1().VirtualMachines(ns).Get(ctx, name, opts)`. -/
def testAccGetVirtualMachine (get : String → String → Except GoError VirtualMachine)
    (state : State) (resourceName : String) : Except GoError VirtualMachine :=
  match state.lookup resourceName with
  | none => .error ⟨"Resource not found: " ++ resourceName⟩
  | some resource =>
    if resource.PrimaryID = "" then .error ⟨"Resource ID not set: " ++ resourceName⟩
    else
      match helper.IDParts resource.PrimaryID with
      | .error err => .error err
      | .ok (ns, name) => get ns name

/-- The loop of `testAccVirtualMachineLabels` over the keys of `labels`, in the
order `keys` in which the range statement hands them out. -/
def testAccVirtualMachineLabels.loop (vmLabels labels : List (String × String)) :
    List String → Option GoError
  | [] => none
  | key :: rest =>
    match vmLabels.lookup key with
    | none => some ⟨"Label " ++ key ++ " not found"⟩
    | some val =>
      if val ≠ (labels.lookup key).getD "" then
        some ⟨"Label " ++ key ++ " contains unexpected value: " ++ val⟩
      else testAccVirtualMachineLabels.loop vmLabels labels rest

/-- The check function returned by `testAccVirtualMachineLabels(ctx, n, labels)`,
applied to a state; `none` is the `nil` error. -/
def testAccVirtualMachineLabels (get : String → String → Except GoError VirtualMachine)
    (n : String) (labels : List (String × String)) (state : State) : Option GoError :=
  match testAccGetVirtualMachine get state n with
  | .error err => some err
  | .ok vm => testAccVirtualMachineLabels.loop vm.Labels labels (labels.map Prod.fst)

/-! ## Sample collaborators

Concrete collaborators on which the handlers can be run: a load balancer is its
list of attributes, the state getter hands the attributes over as states, and
the remote store is the list of stored objects with their namespaces. -/

/-- A load balancer as a list of attributes. -/
abbrev SampleLB := List (String × String)

/-- A remote store holding load balancers by namespace. -/
abbrev SampleStore := List (String × SampleLB)

/-- Collaborators that all succeed: the payload carries the namespace and the
name, and the states of an object are its attributes. -/
def sampleDeps : Deps SampleLB SampleLB where
  FieldCommonNamespace := "namespace"
  FieldCommonName := "name"
  ResourceConstruct := fun _ ns name => .ok [("namespace", ns), ("name", name)]
  ResourceLoadBalancerStateGetter := fun lb => .ok lb
  ResourceStatesSet := fun data states => ({ data with fields := states ++ data.fields }, none)

/-- Collaborators whose payload build fails. -/
def sampleDepsBuildFails : Deps SampleLB SampleLB :=
  { sampleDeps with ResourceConstruct := fun _ _ _ => .error ⟨"ipam: required field is not set"⟩ }

/-- Collaborators whose state getter fails. -/
def sampleDepsGetterFails : Deps SampleLB SampleLB :=
  { sampleDeps with ResourceLoadBalancerStateGetter := fun _ => .error ⟨"unsupported listener"⟩ }

/-- A remote store client that stores the object and returns it with a
server-assigned attribute in front. -/
def sampleClient : Client Unit SampleStore SampleLB where
  Create := fun _ remote ns obj => (.ok (("ipam", "dhcp") :: obj), (ns, obj) :: remote)

/-- A remote store client whose `Create` is refused. -/
def sampleClientRefuses : Client Unit SampleStore SampleLB where
  Create := fun _ remote _ _ => (.error ⟨"loadbalancers \"lb1\" already exists"⟩, remote)

/-- A record for the load balancer `lb1` in namespace `default`, not yet
created. -/
def sampleData : ResourceData :=
  { id := "", fields := [("namespace", "default"), ("name", "lb1")] }

/-- A state holding the virtual machine of `TestAccVirtualMachine_labels`. -/
def sampleState : State :=
  [("harvester_virtualmachine.test-acc-labels", ⟨"harvester_virtualmachine", "default/test-vm"⟩)]

/-- A cluster holding the virtual machine `default/test-vm` with two labels. -/
def sampleGet (ns name : String) : Except GoError VirtualMachine :=
  if ns = "default" ∧ name = "test-vm" then
    .ok ⟨[("harvesterhci.io/creator", "terraform"), ("tag.harvesterhci.io/Foobar", "barfoo")]⟩
  else .error ⟨"virtualmachines \"" ++ name ++ "\" not found"⟩

/-! ## Lemmas -/

section Lemmas

variable {Ctx σ LB SG : Type}

theorem helper.BuildID_data (ns name : String) :
    (helper.BuildID ns name).data = ns.data ++ helper.IDSep :: name.data := by
  simp [helper.BuildID, String.singleton]

theorem helper.BuildID_ne_empty (ns name : String) : helper.BuildID ns name ≠ "" := by
  intro h
  have h1 := congrArg String.data h
  rw [helper.BuildID_data] at h1
  simp at h1

theorem resourceLoadBalancerImport_id (deps : Deps LB SG)
    (hkeep : ∀ (d : ResourceData) (g : SG), d.id ≠ "" → (deps.ResourceStatesSet d g).1.id = d.id)
    (data : ResourceData) (obj : LB) (hid : data.id ≠ "") :
    (resourceLoadBalancerImport deps data obj).1.id = data.id := by
  unfold resourceLoadBalancerImport
  cases h : deps.ResourceLoadBalancerStateGetter obj with
  | error err => rfl
  | ok stateGetter => exact hkeep data stateGetter hid

theorem resourceLoadBalancerCreate_of_success (deps : Deps LB SG) (ctx : Ctx)
    (data : ResourceData) (c : Client Ctx σ LB) (remote remote1 : σ) (toCreate lb : LB)
    (hbuild : deps.ResourceConstruct data (data.Get deps.FieldCommonNamespace)
      (data.Get deps.FieldCommonName) = .ok toCreate)
    (hcreate : c.Create ctx remote (data.Get deps.FieldCommonNamespace) toCreate
      = (.ok lb, remote1)) :
    resourceLoadBalancerCreate deps ctx data c remote =
      ⟨diag.FromErr (resourceLoadBalancerImport deps (data.SetId (helper.BuildID
          (data.Get deps.FieldCommonNamespace) (data.Get deps.FieldCommonName))) lb).2,
        (resourceLoadBalancerImport deps (data.SetId (helper.BuildID
          (data.Get deps.FieldCommonNamespace) (data.Get deps.FieldCommonName))) lb).1,
        remote1, [RemoteCall.Create (data.Get deps.FieldCommonNamespace) toCreate]⟩ := by
  simp only [resourceLoadBalancerCreate, hbuild, hcreate]

theorem resourceLoadBalancerCreate_of_build_error (deps : Deps LB SG) (ctx : Ctx)
    (data : ResourceData) (c : Client Ctx σ LB) (remote : σ) (err : GoError)
    (hbuild : deps.ResourceConstruct data (data.Get deps.FieldCommonNamespace)
      (data.Get deps.FieldCommonName) = .error err) :
    resourceLoadBalancerCreate deps ctx data c remote =
      ⟨diag.FromErr (some err), data, remote, []⟩ := by
  simp only [resourceLoadBalancerCreate, hbuild]

theorem resourceLoadBalancerCreate_of_create_error (deps : Deps LB SG) (ctx : Ctx)
    (data : ResourceData) (c : Client Ctx σ LB) (remote remote1 : σ) (toCreate : LB)
    (err : GoError)
    (hbuild : deps.ResourceConstruct data (data.Get deps.FieldCommonNamespace)
      (data.Get deps.FieldCommonName) = .ok toCreate)
    (hcreate : c.Create ctx remote (data.Get deps.FieldCommonNamespace) toCreate
      = (.error err, remote1)) :
    resourceLoadBalancerCreate deps ctx data c remote =
      ⟨diag.FromErr (some err), data, remote1,
        [RemoteCall.Create (data.Get deps.FieldCommonNamespace) toCreate]⟩ := by
  simp only [resourceLoadBalancerCreate, hbuild, hcreate]

end Lemmas

/-! ## Create -/

section Create

variable {Ctx σ LB SG : Type}

/-- C1: if the payload build and the remote `Create` call succeed,
`resourceLoadBalancerCreate` sets the identifier to `helper.BuildID ns n`, which
is `ns ++ "/" ++ n`, and then re-projects the object returned by the store (not
the submitted payload) into the record: the record it leaves is the one
`resourceLoadBalancerImport` makes of the returned object and the record with
that identifier set, and its identifier is `helper.BuildID ns n` as long as
`util.ResourceStatesSet` leaves an identifier that is set alone. -/
theorem resourceLoadBalancerCreate_sets_id_and_reprojects (deps : Deps LB SG) (ctx : Ctx)
    (data : ResourceData) (c : Client Ctx σ LB) (remote remote1 : σ) (toCreate lb : LB)
    (ns n : String)
    (hns : data.Get deps.FieldCommonNamespace = ns)
    (hn : data.Get deps.FieldCommonName = n)
    (hbuild : deps.ResourceConstruct data ns n = .ok toCreate)
    (hcreate : c.Create ctx remote ns toCreate = (.ok lb, remote1)) :
    helper.BuildID ns n = ns ++ "/" ++ n ∧
    (resourceLoadBalancerCreate deps ctx data c remote).data
      = (resourceLoadBalancerImport deps (data.SetId (helper.BuildID ns n)) lb).1 ∧
    (∀ stateGetter, deps.ResourceLoadBalancerStateGetter lb = .ok stateGetter →
      (resourceLoadBalancerCreate deps ctx data c remote).data
        = (deps.ResourceStatesSet (data.SetId (helper.BuildID ns n)) stateGetter).1) ∧
    ((∀ (d : ResourceData) (g : SG), d.id ≠ "" → (deps.ResourceStatesSet d g).1.id = d.id) →
      (resourceLoadBalancerCreate deps ctx data c remote).data.id = helper.BuildID ns n) ∧
    (resourceLoadBalancerCreate deps ctx data c remote).diags
      = diag.FromErr (resourceLoadBalancerImport deps (data.SetId (helper.BuildID ns n)) lb).2 ∧
    (resourceLoadBalancerCreate deps ctx data c remote).calls = [RemoteCall.Create ns toCreate] := by
  subst hns hn
  rw [resourceLoadBalancerCreate_of_success deps ctx data c remote remote1 toCreate lb hbuild hcreate]
  refine ⟨rfl, rfl, ?_, ?_, rfl, rfl⟩
  · intro stateGetter hsg
    simp only [resourceLoadBalancerImport, hsg]
  · intro hkeep
    rw [resourceLoadBalancerImport_id deps hkeep _ _ (helper.BuildID_ne_empty _ _)]
    rfl

/-- C1 at the record of `lb1` in namespace `default`: the identifier becomes
`default/lb1`, the attribute assigned by the store is in the record and the
diagnostics are empty. -/
theorem resourceLoadBalancerCreate_sets_id_and_reprojects_witness :
    (resourceLoadBalancerCreate sampleDeps () sampleData sampleClient []).data.id
      = helper.BuildID "default" "lb1" ∧
    helper.BuildID "default" "lb1" = "default/lb1" ∧
    (resourceLoadBalancerCreate sampleDeps () sampleData sampleClient []).data.Get "ipam"
      = "dhcp" ∧
    (resourceLoadBalancerCreate sampleDeps () sampleData sampleClient []).diags = [] := by
  have h := resourceLoadBalancerCreate_sets_id_and_reprojects sampleDeps () sampleData
    sampleClient [] [("default", [("namespace", "default"), ("name", "lb1")])]
    [("namespace", "default"), ("name", "lb1")]
    [("ipam", "dhcp"), ("namespace", "default"), ("name", "lb1")]
    "default" "lb1" (by decide) (by decide) (by decide) (by decide)
  exact ⟨h.2.2.2.1 (fun _ _ _ => rfl), h.1, by rw [h.2.1]; decide, by rw [h.2.2.2.2.1]; decide⟩

/-- C2 fails when the re-projection fails: with a state getter that returns an
error, `resourceLoadBalancerCreate` returns an error and the record, whose
identifier was unset, has the identifier `default/lb1`. -/
theorem resourceLoadBalancerCreate_error_after_SetId :
    sampleData.id = "" ∧
    (resourceLoadBalancerCreate sampleDepsGetterFails () sampleData sampleClient []).diags
      = diag.FromErr (some ⟨"unsupported listener"⟩) ∧
    (resourceLoadBalancerCreate sampleDepsGetterFails () sampleData sampleClient []).diags ≠ [] ∧
    (resourceLoadBalancerCreate sampleDepsGetterFails () sampleData sampleClient []).data.id
      = "default/lb1" ∧
    (resourceLoadBalancerCreate sampleDepsGetterFails () sampleData sampleClient []).data
      ≠ sampleData := by
  decide

/-- C2 as amended: when `resourceLoadBalancerCreate` returns an error, either the
payload build or the remote `Create` call failed and the record is as it was
before the call, or the re-projection of the returned object failed and the
record is what the re-projection left of the record whose identifier was set
to `helper.BuildID ns n`; if it is the state getter that failed, that is the
record with just this identifier set. -/
theorem resourceLoadBalancerCreate_error_cases (deps : Deps LB SG) (ctx : Ctx)
    (data : ResourceData) (c : Client Ctx σ LB) (remote : σ)
    (herr : (resourceLoadBalancerCreate deps ctx data c remote).diags ≠ []) :
    let ns := data.Get deps.FieldCommonNamespace
    let n := data.Get deps.FieldCommonName
    let out := resourceLoadBalancerCreate deps ctx data c remote
    (out.data = data ∧
      ((∃ err, deps.ResourceConstruct data ns n = .error err) ∨
       (∃ toCreate err remote1, deps.ResourceConstruct data ns n = .ok toCreate ∧
          c.Create ctx remote ns toCreate = (.error err, remote1)))) ∨
    (∃ toCreate lb remote1 err, deps.ResourceConstruct data ns n = .ok toCreate ∧
        c.Create ctx remote ns toCreate = (.ok lb, remote1) ∧
        resourceLoadBalancerImport deps (data.SetId (helper.BuildID ns n)) lb
          = (out.data, some err) ∧
        (deps.ResourceLoadBalancerStateGetter lb = .error err →
          out.data = data.SetId (helper.BuildID ns n) ∧ out.data.id ≠ "")) := by
  intro ns n out
  cases hbuild : deps.ResourceConstruct data ns n with
  | error err =>
    left
    refine ⟨?_, Or.inl ⟨err, rfl⟩⟩
    show (resourceLoadBalancerCreate deps ctx data c remote).data = data
    rw [resourceLoadBalancerCreate_of_build_error deps ctx data c remote err hbuild]
  | ok toCreate =>
    rcases hcreate : c.Create ctx remote ns toCreate with ⟨res, remote1⟩
    cases res with
    | error err =>
      left
      refine ⟨?_, Or.inr ⟨toCreate, err, remote1, rfl, hcreate⟩⟩
      show (resourceLoadBalancerCreate deps ctx data c remote).data = data
      rw [resourceLoadBalancerCreate_of_create_error deps ctx data c remote remote1 toCreate err
        hbuild hcreate]
    | ok lb =>
      right
      have hout := resourceLoadBalancerCreate_of_success deps ctx data c remote remote1
        toCreate lb hbuild hcreate
      have hd : out.data = (resourceLoadBalancerImport deps
          (data.SetId (helper.BuildID ns n)) lb).1 := by
        show (resourceLoadBalancerCreate deps ctx data c remote).data = _
        rw [hout]
      have hg : out.diags = diag.FromErr (resourceLoadBalancerImport deps
          (data.SetId (helper.BuildID ns n)) lb).2 := by
        show (resourceLoadBalancerCreate deps ctx data c remote).diags = _
        rw [hout]
      cases hres : (resourceLoadBalancerImport deps (data.SetId (helper.BuildID ns n)) lb).2 with
      | none =>
        exfalso
        apply herr
        show out.diags = []
        rw [hg, hres]
        rfl
      | some err =>
        refine ⟨toCreate, lb, remote1, err, rfl, hcreate, ?_, ?_⟩
        · rw [hd, ← hres]
        · intro hsg
          have himp : resourceLoadBalancerImport deps (data.SetId (helper.BuildID ns n)) lb
              = (data.SetId (helper.BuildID ns n), some err) := by
            simp only [resourceLoadBalancerImport, hsg]
          rw [hd, himp]
          exact ⟨rfl, helper.BuildID_ne_empty ns n⟩

/-- C2 as amended, at a record whose payload build fails: the record is as it
was and its identifier is unset. -/
theorem resourceLoadBalancerCreate_error_cases_witness :
    (resourceLoadBalancerCreate sampleDepsBuildFails () sampleData sampleClient []).diags ≠ [] ∧
    (resourceLoadBalancerCreate sampleDepsBuildFails () sampleData sampleClient []).data
      = sampleData ∧
    (resourceLoadBalancerCreate sampleDepsBuildFails () sampleData sampleClient []).data.id
      = "" := by
  have h := resourceLoadBalancerCreate_error_cases sampleDepsBuildFails () sampleData
    sampleClient [] (by decide)
  refine ⟨by decide, ?_, by decide⟩
  rcases h with h | ⟨toCreate, _, _, _, hb, _⟩
  · exact h.1
  · exact absurd hb (by simp [sampleDepsBuildFails])

/-- C3: if the payload build fails with `err`, `resourceLoadBalancerCreate`
returns `diag.FromErr err` and issues no remote call; if the build succeeds and
the remote `Create` call fails with `err`, it returns `diag.FromErr err`, the
error being neither replaced nor wrapped, and `Create` is the only remote call,
issued once; in no case is more than one remote call issued. -/
theorem resourceLoadBalancerCreate_surfaces_error (deps : Deps LB SG) (ctx : Ctx)
    (data : ResourceData) (c : Client Ctx σ LB) (remote : σ) :
    let ns := data.Get deps.FieldCommonNamespace
    let n := data.Get deps.FieldCommonName
    let out := resourceLoadBalancerCreate deps ctx data c remote
    (∀ err, deps.ResourceConstruct data ns n = .error err →
      out.diags = diag.FromErr (some err) ∧ out.calls = [] ∧ out.remote = remote) ∧
    (∀ toCreate err remote1, deps.ResourceConstruct data ns n = .ok toCreate →
      c.Create ctx remote ns toCreate = (.error err, remote1) →
      out.diags = diag.FromErr (some err) ∧ out.diags = [⟨Severity.Error, err.msg⟩] ∧
      out.calls = [RemoteCall.Create ns toCreate] ∧ out.remote = remote1) ∧
    out.calls.length ≤ 1 := by
  intro ns n out
  refine ⟨?_, ?_, ?_⟩
  · intro err hbuild
    have h := resourceLoadBalancerCreate_of_build_error deps ctx data c remote err hbuild
    exact ⟨congrArg Outcome.diags h, congrArg Outcome.calls h, congrArg Outcome.remote h⟩
  · intro toCreate err remote1 hbuild hcreate
    have h := resourceLoadBalancerCreate_of_create_error deps ctx data c remote remote1
      toCreate err hbuild hcreate
    exact ⟨congrArg Outcome.diags h, congrArg Outcome.diags h, congrArg Outcome.calls h,
      congrArg Outcome.remote h⟩
  · show (resourceLoadBalancerCreate deps ctx data c remote).calls.length ≤ 1
    unfold resourceLoadBalancerCreate
    simp only
    split
    · simp
    · split <;> simp

/-- C3 at a store that refuses the object and at a payload build that fails. -/
theorem resourceLoadBalancerCreate_surfaces_error_witness :
    (resourceLoadBalancerCreate sampleDeps () sampleData sampleClientRefuses []).diags
      = diag.FromErr (some ⟨"loadbalancers \"lb1\" already exists"⟩) ∧
    (resourceLoadBalancerCreate sampleDeps () sampleData sampleClientRefuses []).calls
      = [RemoteCall.Create "default" [("namespace", "default"), ("name", "lb1")]] ∧
    (resourceLoadBalancerCreate sampleDepsBuildFails () sampleData sampleClient []).diags
      = diag.FromErr (some ⟨"ipam: required field is not set"⟩) ∧
    (resourceLoadBalancerCreate sampleDepsBuildFails () sampleData sampleClient []).calls
      = [] := by
  have h1 := (resourceLoadBalancerCreate_surfaces_error sampleDeps () sampleData
    sampleClientRefuses []).2.1 [("namespace", "default"), ("name", "lb1")]
    ⟨"loadbalancers \"lb1\" already exists"⟩ [] (by decide) (by decide)
  have h2 := (resourceLoadBalancerCreate_surfaces_error sampleDepsBuildFails () sampleData
    sampleClient []).1 ⟨"ipam: required field is not set"⟩ (by decide)
  exact ⟨h1.1, h1.2.2.1, h2.1, h2.2.1⟩

/-- C9 fails: whatever string the identifier codec yields for the empty
namespace with the name `x`, and for the namespace `ns/bad` with the name `x`,
the handler has no check and no error branch in front of `SetId`: it returns
success and the record has that string as its identifier. -/
theorem resourceLoadBalancerCreateWith_stores_unchecked_id :
    ("" : String) = "" ∧ helper.IDSep ∈ "ns/bad".data ∧
    ∀ buildID : String → String → String,
      (resourceLoadBalancerCreateWith buildID sampleDeps ()
        ⟨"", [("namespace", ""), ("name", "x")]⟩ sampleClient []).diags = [] ∧
      (resourceLoadBalancerCreateWith buildID sampleDeps ()
        ⟨"", [("namespace", ""), ("name", "x")]⟩ sampleClient []).data.id = buildID "" "x" ∧
      (resourceLoadBalancerCreateWith buildID sampleDeps ()
        ⟨"", [("namespace", "ns/bad"), ("name", "x")]⟩ sampleClient []).diags = [] ∧
      (resourceLoadBalancerCreateWith buildID sampleDeps ()
        ⟨"", [("namespace", "ns/bad"), ("name", "x")]⟩ sampleClient []).data.id
        = buildID "ns/bad" "x" := by
  refine ⟨rfl, by decide, ?_⟩
  intro buildID
  exact ⟨rfl, rfl, rfl, rfl⟩

/-- C9 as amended: the handler makes no check on the pair and has no
`InvalidIdentity` branch.  For every string-valued codec in the place of
`helper.BuildID` and every namespace and name, empty or separator-bearing ones
included, if the payload build and the remote `Create` call succeed then
`SetId` is applied to the string the codec yields before the re-projection;
that string is the identifier of the record left when the state getter fails,
and also when `util.ResourceStatesSet` leaves an identifier that is set
alone and the string is not empty.  At `helper.BuildID` the handler is
`resourceLoadBalancerCreate`. -/
theorem resourceLoadBalancerCreateWith_stores_codec_result
    (buildID : String → String → String) (deps : Deps LB SG) (ctx : Ctx)
    (data : ResourceData) (c : Client Ctx σ LB) (remote remote1 : σ) (toCreate lb : LB)
    (ns n : String)
    (hns : data.Get deps.FieldCommonNamespace = ns)
    (hn : data.Get deps.FieldCommonName = n)
    (hbuild : deps.ResourceConstruct data ns n = .ok toCreate)
    (hcreate : c.Create ctx remote ns toCreate = (.ok lb, remote1)) :
    (resourceLoadBalancerCreateWith buildID deps ctx data c remote).data
      = (resourceLoadBalancerImport deps (data.SetId (buildID ns n)) lb).1 ∧
    (resourceLoadBalancerCreateWith buildID deps ctx data c remote).diags
      = diag.FromErr (resourceLoadBalancerImport deps (data.SetId (buildID ns n)) lb).2 ∧
    (∀ err, deps.ResourceLoadBalancerStateGetter lb = .error err →
      (resourceLoadBalancerCreateWith buildID deps ctx data c remote).data.id = buildID ns n) ∧
    ((∀ (d : ResourceData) (g : SG), d.id ≠ "" → (deps.ResourceStatesSet d g).1.id = d.id) →
      buildID ns n ≠ "" →
      (resourceLoadBalancerCreateWith buildID deps ctx data c remote).data.id = buildID ns n) ∧
    resourceLoadBalancerCreateWith helper.BuildID deps ctx data c remote
      = resourceLoadBalancerCreate deps ctx data c remote := by
  subst hns hn
  have hout : resourceLoadBalancerCreateWith buildID deps ctx data c remote =
      ⟨diag.FromErr (resourceLoadBalancerImport deps (data.SetId (buildID
          (data.Get deps.FieldCommonNamespace) (data.Get deps.FieldCommonName))) lb).2,
        (resourceLoadBalancerImport deps (data.SetId (buildID
          (data.Get deps.FieldCommonNamespace) (data.Get deps.FieldCommonName))) lb).1,
        remote1, [RemoteCall.Create (data.Get deps.FieldCommonNamespace) toCreate]⟩ := by
    simp only [resourceLoadBalancerCreateWith, hbuild, hcreate]
  rw [hout]
  refine ⟨rfl, rfl, ?_, ?_, rfl⟩
  · intro err hsg
    simp only [resourceLoadBalancerImport, hsg]
    rfl
  · intro hkeep hne
    exact resourceLoadBalancerImport_id deps hkeep _ _ hne

/-- C9 as amended, at the empty namespace with the name `x` and a codec that
joins the two with `/`: the build and the remote call succeed and the record
has the identifier `/x`. -/
theorem resourceLoadBalancerCreateWith_stores_codec_result_witness :
    (resourceLoadBalancerCreateWith (fun ns n => ns ++ "/" ++ n) sampleDeps ()
      ⟨"", [("namespace", ""), ("name", "x")]⟩ sampleClient []).data.id = "/x" ∧
    (resourceLoadBalancerCreateWith (fun ns n => ns ++ "/" ++ n) sampleDeps ()
      ⟨"", [("namespace", ""), ("name", "x")]⟩ sampleClient []).diags = [] := by
  have h := resourceLoadBalancerCreateWith_stores_codec_result (fun ns n => ns ++ "/" ++ n)
    sampleDeps () ⟨"", [("namespace", ""), ("name", "x")]⟩ sampleClient []
    [("", [("namespace", ""), ("name", "x")])]
    [("namespace", ""), ("name", "x")]
    [("ipam", "dhcp"), ("namespace", ""), ("name", "x")]
    "" "x" (by decide) (by decide) (by decide) (by decide)
  exact ⟨h.2.2.2.1 (fun _ _ _ => rfl) (by decide), by rw [h.2.1]; decide⟩

end Create

/-! ## Read, update, delete -/

section ReadUpdateDelete

variable {Ctx σ LB : Type}

/-- C4: `resourceLoadBalancerUpdate` returns `diag.FromErr(nil)`, the empty
diagnostics, issues no remote call and leaves the record, its identifier and
the remote store as they were, for every record, client and context. -/
theorem resourceLoadBalancerUpdate_noop (ctx : Ctx) (data : ResourceData)
    (c : Client Ctx σ LB) (remote : σ) :
    (resourceLoadBalancerUpdate ctx data c remote).diags = [] ∧
    (resourceLoadBalancerUpdate ctx data c remote).calls = [] ∧
    (resourceLoadBalancerUpdate ctx data c remote).data = data ∧
    (resourceLoadBalancerUpdate ctx data c remote).data.id = data.id ∧
    (resourceLoadBalancerUpdate ctx data c remote).remote = remote :=
  ⟨rfl, rfl, rfl, rfl, rfl⟩

/-- C5: `resourceLoadBalancerDelete` issues no remote call, leaves the record
and the remote store as they were and returns success; a second call after
the first succeeds as well and leaves the state the first call left. -/
theorem resourceLoadBalancerDelete_noop_idempotent (ctx : Ctx) (data : ResourceData)
    (c : Client Ctx σ LB) (remote : σ) :
    (resourceLoadBalancerDelete ctx data c remote).diags = [] ∧
    (resourceLoadBalancerDelete ctx data c remote).calls = [] ∧
    (resourceLoadBalancerDelete ctx data c remote).data = data ∧
    (resourceLoadBalancerDelete ctx data c remote).remote = remote ∧
    (resourceLoadBalancerDelete ctx (resourceLoadBalancerDelete ctx data c remote).data c
      (resourceLoadBalancerDelete ctx data c remote).remote).diags = [] ∧
    resourceLoadBalancerDelete ctx (resourceLoadBalancerDelete ctx data c remote).data c
      (resourceLoadBalancerDelete ctx data c remote).remote
      = resourceLoadBalancerDelete ctx data c remote :=
  ⟨rfl, rfl, rfl, rfl, rfl, rfl⟩

/-- C6: `resourceLoadBalancerRead` leaves the fields and the identifier of the
record as they were and issues no remote call, whatever the remote store
holds. -/
theorem resourceLoadBalancerRead_frame (ctx : Ctx) (data : ResourceData)
    (c : Client Ctx σ LB) (remote : σ) :
    (resourceLoadBalancerRead ctx data c remote).data.fields = data.fields ∧
    (resourceLoadBalancerRead ctx data c remote).data.id = data.id ∧
    (resourceLoadBalancerRead ctx data c remote).calls = [] ∧
    (resourceLoadBalancerRead ctx data c remote).remote = remote :=
  ⟨rfl, rfl, rfl, rfl⟩

/-- C7 fails: the remote store is empty, so the load balancer `default/lb1` is
absent from it, and `resourceLoadBalancerRead` returns the empty diagnostics
and leaves the identifier `default/lb1` in the record. -/
theorem resourceLoadBalancerRead_absent_plain_success :
    helper.IDParts "default/lb1" = .ok ("default", "lb1") ∧
    (∀ obj : SampleLB, ("default", obj) ∉ ([] : SampleStore)) ∧
    (resourceLoadBalancerRead () ⟨"default/lb1", [("namespace", "default"), ("name", "lb1")]⟩
      sampleClient []).diags = [] ∧
    (resourceLoadBalancerRead () ⟨"default/lb1", [("namespace", "default"), ("name", "lb1")]⟩
      sampleClient []).data.id = "default/lb1" := by
  refine ⟨by decide, ?_, rfl, rfl⟩
  intro obj h
  cases h

/-- C7 as amended: `resourceLoadBalancerRead` returns plain success, the
diagnostics of a `nil` error, and does not clear the identifier, whatever the
remote store holds and so also when the resource is absent from it. -/
theorem resourceLoadBalancerRead_plain_success (ctx : Ctx) (data : ResourceData)
    (c : Client Ctx σ LB) (remote : σ) :
    (resourceLoadBalancerRead ctx data c remote).diags = diag.FromErr none ∧
    (resourceLoadBalancerRead ctx data c remote).diags = [] ∧
    (resourceLoadBalancerRead ctx data c remote).data.id = data.id :=
  ⟨rfl, rfl, rfl⟩

end ReadUpdateDelete

/-! ## Identifier round trip -/

theorem helper.splitOn_BuildID (ns n : String)
    (hsns : helper.IDSep ∉ ns.data) (hsn : helper.IDSep ∉ n.data) :
    (helper.BuildID ns n).data.splitOn helper.IDSep = [ns.data, n.data] := by
  rw [helper.BuildID_data, List.splitOn]
  rw [List.splitOnP_first (· == helper.IDSep) ns.data ?_ helper.IDSep (by simp) n.data]
  · rw [List.splitOnP_eq_single (· == helper.IDSep) n.data ?_]
    intro x hx hxs
    exact hsn (by rw [← eq_of_beq hxs]; exact hx)
  · intro x hx hxs
    exact hsns (by rw [← eq_of_beq hxs]; exact hx)

/-- C8: for a namespace and a name that are both non-empty and contain no
separator, `helper.IDParts (helper.BuildID ns n)` returns the pair `(ns, n)`
itself with no error. -/
theorem helper.IDParts_BuildID (ns n : String) (hns : ns ≠ "") (hn : n ≠ "")
    (hsns : helper.IDSep ∉ ns.data) (hsn : helper.IDSep ∉ n.data) :
    helper.IDParts (helper.BuildID ns n) = .ok (ns, n) := by
  have hns1 : ns.data ≠ [] := fun h => hns (String.ext h)
  have hn1 : n.data ≠ [] := fun h => hn (String.ext h)
  unfold helper.IDParts
  rw [helper.splitOn_BuildID ns n hsns hsn]
  simp [hns1, hn1]

/-- C8 at a pair with capitals and blanks, which come back as they went in. -/
theorem helper.IDParts_BuildID_witness :
    helper.IDParts (helper.BuildID "Default " " LB1") = .ok ("Default ", " LB1") :=
  helper.IDParts_BuildID "Default " " LB1" (by decide) (by decide) (by decide) (by decide)

/-! ## The label check -/

theorem testAccVirtualMachineLabels.loop_eq_none_iff (vmLabels labels : List (String × String))
    (keys : List String) :
    testAccVirtualMachineLabels.loop vmLabels labels keys = none ↔
      ∀ key ∈ keys, vmLabels.lookup key = some ((labels.lookup key).getD "") := by
  induction keys with
  | nil => simp [testAccVirtualMachineLabels.loop]
  | cons key rest ih =>
    simp only [testAccVirtualMachineLabels.loop, List.mem_cons, forall_eq_or_imp]
    cases hl : vmLabels.lookup key with
    | none => simp
    | some val =>
      by_cases hv : val = (labels.lookup key).getD ""
      · simp [hv, ih]
      · simp [hv]

theorem mem_keys_iff_lookup (labels : List (String × String)) (key : String) :
    key ∈ labels.map Prod.fst ↔ ∃ val, labels.lookup key = some val := by
  rw [← Option.isSome_iff_exists, List.lookup_isSome_iff]
  simp only [List.mem_map, beq_iff_eq]
  constructor
  · rintro ⟨p, hp, rfl⟩
    exact ⟨p, hp, rfl⟩
  · rintro ⟨p, hp, rfl⟩
    exact ⟨p, hp, rfl⟩

/-- C10: when the lookup of the virtual machine succeeds, the check built by
`testAccVirtualMachineLabels` returns `nil` exactly if every key of the
expected labels is among the labels of the virtual machine with the same
value; with no expected labels it returns `nil`; when the lookup fails, the
check returns the error of the lookup. -/
theorem testAccVirtualMachineLabels_spec
    (get : String → String → Except GoError VirtualMachine) (n : String)
    (labels : List (String × String)) (state : State) :
    (∀ vm, testAccGetVirtualMachine get state n = .ok vm →
      (testAccVirtualMachineLabels get n labels state = none ↔
        ∀ key val, labels.lookup key = some val → vm.Labels.lookup key = some val)) ∧
    (∀ vm, testAccGetVirtualMachine get state n = .ok vm →
      testAccVirtualMachineLabels get n [] state = none) ∧
    (∀ err, testAccGetVirtualMachine get state n = .error err →
      testAccVirtualMachineLabels get n labels state = some err) := by
  refine ⟨?_, ?_, ?_⟩
  · intro vm hvm
    simp only [testAccVirtualMachineLabels, hvm]
    rw [testAccVirtualMachineLabels.loop_eq_none_iff]
    constructor
    · intro h key val hkv
      have := h key ((mem_keys_iff_lookup labels key).2 ⟨val, hkv⟩)
      rw [this, hkv]
      rfl
    · intro h key hkey
      obtain ⟨val, hkv⟩ := (mem_keys_iff_lookup labels key).1 hkey
      rw [h key val hkv, hkv]
      rfl
  · intro vm hvm
    simp only [testAccVirtualMachineLabels, hvm]
    rfl
  · intro err herr
    simp only [testAccVirtualMachineLabels, herr]

/-- C10 at the labels of `TestAccVirtualMachine_labels`: the check passes
although the virtual machine has a further label, fails on a different
value, and returns the error of the lookup for a resource not in the state. -/
theorem testAccVirtualMachineLabels_spec_witness :
    testAccVirtualMachineLabels sampleGet "harvester_virtualmachine.test-acc-labels"
      [("tag.harvesterhci.io/Foobar", "barfoo")] sampleState = none ∧
    testAccVirtualMachineLabels sampleGet "harvester_virtualmachine.test-acc-labels"
      [("tag.harvesterhci.io/Foobar", "foobar")] sampleState ≠ none ∧
    testAccVirtualMachineLabels sampleGet "harvester_virtualmachine.other"
      [("tag.harvesterhci.io/Foobar", "barfoo")] sampleState
      = some ⟨"Resource not found: harvester_virtualmachine.other"⟩ := by
  refine ⟨?_, ?_, ?_⟩
  · refine ((testAccVirtualMachineLabels_spec sampleGet _ _ sampleState).1
      ⟨[("harvesterhci.io/creator", "terraform"), ("tag.harvesterhci.io/Foobar", "barfoo")]⟩
      (by decide)).2 ?_
    intro key val h
    by_cases hk : key = "tag.harvesterhci.io/Foobar"
    · subst hk
      have hval : "barfoo" = val := by simpa using h
      subst hval
      decide
    · have hb : (key == "tag.harvesterhci.io/Foobar") = false := by simpa using hk
      simp [List.lookup, hb] at h
  · intro hnone
    have h := ((testAccVirtualMachineLabels_spec sampleGet _ _ sampleState).1
      ⟨[("harvesterhci.io/creator", "terraform"), ("tag.harvesterhci.io/Foobar", "barfoo")]⟩
      (by decide)).1 hnone "tag.harvesterhci.io/Foobar" "foobar" (by decide)
    exact absurd h (by decide)
  · exact (testAccVirtualMachineLabels_spec sampleGet _ _ sampleState).2.2 _ (by decide)

end Harvester
